import Mathlib

/-!
Verification development for the ALPR backend (`Backend/app/main.py`).

The backend is a stateless request/response layer over a MongoDB document
store.  We shallowly embed the `camera_details` collection as a list of
documents in insertion order, and each FastAPI handler as a pure function
from the current collection state (plus its request parameters) to the new
collection state together with either a success payload or the
`HTTPException` it raises.  MongoDB single-document operations
(`find_one`, `update_one`, `find_one_and_delete`) are embedded as
first-match operations on the list.

Numeric coordinate fields (`x`, `y`, `x1`, `width`, ...) are IEEE floats in
the source; no handler ever performs arithmetic on them — they are only
carried around and compared for whole-document equality by the store when
it decides whether an update modified a document (a bytewise BSON
comparison, which is decidable even on floats).  We therefore model them
as `Int`, keeping decidable equality, which is the only operation used.
-/

namespace Alpr

/-- A BSON scalar value as used in `camera_id` fields.  The handlers are
inconsistent about the type of `camera_id`: every insertion path and most
query paths use a string (`camera_id: str`), but `delete_config` declares
`camera_id: int`, and in BSON an integer never compares equal to a string.
Embedding both constructors makes that mismatch expressible. -/
inductive BVal where
  | str (s : String)
  | int (n : Int)
deriving DecidableEq

/-- `class Point` (main.py line 37): a 2-D coordinate. -/
structure Point where
  x : Int
  y : Int
deriving DecidableEq

/-- `class ROIStructure` (line 42): an axis-aligned rectangle. -/
structure ROIStructure where
  x1 : Int
  y1 : Int
  width : Int
  height : Int
deriving DecidableEq

/-- `class WrongParkingROI` (line 49): an identified rectangular zone. -/
structure WrongParkingROI where
  id : String
  roi : ROIStructure
deriving DecidableEq

/-- `class GateROI` (line 58): an identified, typed line-pair gate. -/
structure GateROI where
  type : String
  id : String
  trip_line : List Point
  dir_line : List Point
deriving DecidableEq

/-- `class CameraConfig` (line 72): the request body of `POST /config`. -/
structure CameraConfig where
  camera_id : String
  rtsp_url : String
  algorithm : String
  gate : List GateROI
  wrong_parking : List WrongParkingROI
deriving DecidableEq

/-- A document of the `camera_details` collection.  MongoDB documents are
schema-free: `POST /config` inserts all five fields, while
`POST /gate/{camera_id}` on a missing camera inserts a document holding
only `camera_id` and `gate`.  Fields other than `camera_id` are therefore
optional, `none` meaning the field is absent from the document. -/
structure Doc where
  camera_id : BVal
  rtsp_url : Option String
  algorithm : Option String
  gate : Option (List GateROI)
  wrong_parking : Option (List WrongParkingROI)
deriving DecidableEq

/-- An `HTTPException(status_code, detail)` raised by a handler. -/
inductive Err where
  | httpError (status : Nat) (detail : String)
deriving DecidableEq

/-- Result object of a MongoDB `update_one` call: how many documents the
filter matched (at most one for `update_one`) and how many were actually
modified (`0` also when the matched document already had the target
value). -/
structure UpdateResult where
  matched_count : Nat
  modified_count : Nat
deriving DecidableEq

/-- MongoDB `update_one`: apply `f` to the first document matching `q`,
leaving the rest of the collection unchanged, and report
matched/modified counts.  `modified_count` is `0` when the rewritten
document is identical to the stored one. -/
def update_one : List Doc → (Doc → Bool) → (Doc → Doc) → List Doc × UpdateResult
  | [], _, _ => ([], ⟨0, 0⟩)
  | d :: rest, q, f =>
    if q d then
      (f d :: rest, ⟨1, if f d = d then 0 else 1⟩)
    else
      (d :: (update_one rest q f).1, (update_one rest q f).2)

/-- MongoDB `find_one_and_delete`: remove the first document matching `q`
and return it, or return `none` leaving the collection unchanged. -/
def find_one_and_delete : List Doc → (Doc → Bool) → Option Doc × List Doc
  | [], _ => (none, [])
  | d :: rest, q =>
    if q d then (some d, rest)
    else ((find_one_and_delete rest q).1, d :: (find_one_and_delete rest q).2)

/-- Replace the first element satisfying `p` by `a` (the effect of
MongoDB's positional `$set {"arr.$": a}` on the matched array). -/
def replaceFirst {α : Type} : List α → (α → Bool) → α → List α
  | [], _, _ => []
  | x :: xs, p, a => if p x then a :: xs else x :: replaceFirst xs p a

/-- The filter `{"camera_id": camera_id}` with a string-typed id. -/
def camQuery (cid : String) (d : Doc) : Bool :=
  decide (d.camera_id = BVal.str cid)

/-- The document inserted by `create_config`: all five `CameraConfig`
fields present. -/
def docOfConfig (c : CameraConfig) : Doc :=
  { camera_id := BVal.str c.camera_id
    rtsp_url := some c.rtsp_url
    algorithm := some c.algorithm
    gate := some c.gate
    wrong_parking := some c.wrong_parking }

/-- `POST /config` — `create_config` (line 107): reject with 400 when a
document with the same `camera_id` exists, otherwise insert.  The
generated `ObjectId` is modelled as the inserted document's position. -/
def create_config (db : List Doc) (config : CameraConfig) :
    List Doc × Except Err Nat :=
  match db.find? (camQuery config.camera_id) with
  | some _ =>
      (db, .error (Err.httpError 400
        "Camera configuration with the same camera_id already exists"))
  | none => (db ++ [docOfConfig config], .ok db.length)

/-- `PUT /config/{camera_id}` — `update_rtsp_url` (line 121): 404 when no
document matches; otherwise `$set` the `rtsp_url` field, and 404 again
when the store reports zero documents modified (which happens exactly
when the stored value already equals the new one). -/
def update_rtsp_url (db : List Doc) (camera_id rtsp_url : String) :
    List Doc × Except Err Unit :=
  match db.find? (camQuery camera_id) with
  | none => (db, .error (Err.httpError 404 "Config not found"))
  | some _ =>
      if (update_one db (camQuery camera_id)
            (fun d => { d with rtsp_url := some rtsp_url })).2.modified_count = 0 then
        ((update_one db (camQuery camera_id)
            (fun d => { d with rtsp_url := some rtsp_url })).1,
         .error (Err.httpError 404 "RTSP URL not updated"))
      else
        ((update_one db (camQuery camera_id)
            (fun d => { d with rtsp_url := some rtsp_url })).1, .ok ())

/-- `DELETE /config/{camera_id}` — `delete_config` (line 144): the handler
declares `camera_id: int`, so the filter carries an integer BSON value.
`find_one_and_delete` removes the first match and returns it; 404 when
nothing matched. -/
def delete_config (db : List Doc) (camera_id : Int) :
    List Doc × Except Err Doc :=
  match find_one_and_delete db (fun d => decide (d.camera_id = BVal.int camera_id)) with
  | (none, db2) => (db2, .error (Err.httpError 404 "Config not found"))
  | (some doc, db2) => (db2, .ok doc)

/-- `POST /gate/{camera_id}` — first `update_gate_config` (line 156): when
no document matches, insert a minimal document holding only `camera_id`
and the given gate list; otherwise `$set` the `gate` field to the
existing list (defaulting to `[]` when the field is absent) with the new
gates appended.  This handler raises no `HTTPException`. -/
def update_gate_config_post (db : List Doc) (camera_id : String)
    (gate_config : List GateROI) : List Doc :=
  match db.find? (camQuery camera_id) with
  | none =>
      db ++ [{ camera_id := BVal.str camera_id, rtsp_url := none,
               algorithm := none, gate := some gate_config,
               wrong_parking := none }]
  | some existing_config =>
      (update_one db (camQuery camera_id)
        (fun d => { d with
          gate := some (existing_config.gate.getD [] ++ gate_config) })).1

/-- The filter `{"camera_id": camera_id, "gate.id": gate_id}` of the gate
replacement handler: the document must have the camera id and its `gate`
array must contain an element with the given id. -/
def putQuery (cid gid : String) (d : Doc) : Bool :=
  decide (d.camera_id = BVal.str cid) &&
    (d.gate.getD []).any (fun e => decide (e.id = gid))

/-- The positional update `{"$set": {"gate.$": gate_config}}`: replace the
first `gate` element with the queried id. -/
def putUpdate (gid : String) (gate_config : GateROI) (d : Doc) : Doc :=
  { d with gate := some (replaceFirst (d.gate.getD [])
      (fun e => decide (e.id = gid)) gate_config) }

/-- `PUT /gate/{camera_id}/{gate_id}` — second `update_gate_config`
(line 178): positional replace of the matching gate element; 404 when
the filter matched no document (camera absent, or no gate with that id).
Note this handler tests `matched_count`, not `modified_count`. -/
def update_gate_config_put (db : List Doc) (camera_id gate_id : String)
    (gate_config : GateROI) : List Doc × Except Err Unit :=
  if (update_one db (putQuery camera_id gate_id)
        (putUpdate gate_id gate_config)).2.matched_count = 0 then
    ((update_one db (putQuery camera_id gate_id)
        (putUpdate gate_id gate_config)).1,
     .error (Err.httpError 404
       ("Gate configuration with ID " ++ gate_id ++
        " not found for camera ID " ++ camera_id)))
  else
    ((update_one db (putQuery camera_id gate_id)
        (putUpdate gate_id gate_config)).1, .ok ())

/-- The filter `{"camera_id": camera_id, "wrong_parking.id": id}` of the
wrong-parking upsert. -/
def wpQuery (cid pid : String) (d : Doc) : Bool :=
  decide (d.camera_id = BVal.str cid) &&
    (d.wrong_parking.getD []).any (fun e => decide (e.id = pid))

/-- The positional update `{"$set": {"wrong_parking.$": item}}`. -/
def wpReplace (item : WrongParkingROI) (d : Doc) : Doc :=
  { d with wrong_parking := some (replaceFirst (d.wrong_parking.getD [])
      (fun e => decide (e.id = item.id)) item) }

/-- The update `{"$push": {"wrong_parking": item}}`: append to the array,
creating the field when absent. -/
def wpPush (item : WrongParkingROI) (d : Doc) : Doc :=
  { d with wrong_parking := some (d.wrong_parking.getD [] ++ [item]) }

/-- One iteration of the loop in `update_wrong_parking_config` (line 204):
if some document has this camera id and a `wrong_parking` element with
the item's id, positionally replace that element (404 when the store
reports zero modified, i.e. the element was already identical);
otherwise `$push` the item onto the camera's `wrong_parking` array (404
when no document with the camera id exists, so nothing matched). -/
def wp_step (db : List Doc) (cid : String) (item : WrongParkingROI) :
    List Doc × Option Err :=
  if (db.find? (wpQuery cid item.id)).isSome then
    if (update_one db (wpQuery cid item.id) (wpReplace item)).2.modified_count = 0 then
      ((update_one db (wpQuery cid item.id) (wpReplace item)).1,
       some (Err.httpError 404
         ("Failed to update configuration with ID " ++ item.id)))
    else
      ((update_one db (wpQuery cid item.id) (wpReplace item)).1, none)
  else
    if (update_one db (camQuery cid) (wpPush item)).2.modified_count = 0 then
      ((update_one db (camQuery cid) (wpPush item)).1,
       some (Err.httpError 404 "Failed to create new configuration"))
    else
      ((update_one db (camQuery cid) (wpPush item)).1, none)

/-- `POST /wrong_parking/{camera_id}` — `update_wrong_parking_config`
(line 201): process the items in order; the first `HTTPException` aborts
the loop, but the store mutations of the earlier iterations stand (no
transaction spans the batch). -/
def update_wrong_parking_config : List Doc → String → List WrongParkingROI →
    List Doc × Option Err
  | db, _, [] => (db, none)
  | db, cid, item :: rest =>
    match wp_step db cid item with
    | (db2, none) => update_wrong_parking_config db2 cid rest
    | (db2, some e) => (db2, some e)

/-- `class Payload` (line 80): one analytics record of the
`alpr_analytics` collection.  The `gate` field is a free-form dict of
which the aggregators only ever read the `"type"` entry (via the BSON
path `gate.type`); we model exactly that entry, `none` meaning the dict
has no `"type"` key (grouped under a key distinct from `"Entry"`,
`"Exit"` and `"NotApplicable"` by the store, hence never counted). -/
structure Payload where
  camera_id : Int
  gateType : Option String
  vehicle : String
  plate_type : String
  license_plate : String
  plate_img : String
  timestamp : String
deriving DecidableEq

/-- `class Alert` (line 90): one record of the `alerts` collection. -/
structure Alert where
  alert_type : String
  id : String
  vechile_no : String
  camera_id : Int
  alert_img : String
  plate_img : String
  timestamp : String
deriving DecidableEq

/-- One element of the JSON array emitted by the vehicle-count handlers:
either a per-vehicle-type row with entry/exit sub-counts, or a summary
row carrying only a total. -/
inductive Row where
  | typeRow (type : String) (count entry_count exit_count : Nat)
  | summaryRow (type : String) (count : Nat)
deriving DecidableEq

/-- The fixed vocabulary `vehicle_types` (line 292). -/
def vehicle_types : List String :=
  ["car", "truck", "bicycle", "motorcycle", "autorickshaw"]

/-- Number of records satisfying a filter — the value of an aggregation
group `{"$group": {"_id": k, "count": {"$sum": 1}}}` for a key `k`,
composed with the preceding `$match` stage. -/
def countWhere (recs : List Payload) (p : Payload → Bool) : Nat :=
  (recs.filter p).length

/-- Per-type total of `get_vehicle_counts` (pipeline at line 300): match
`vehicle ∈ vehicle_types`, group by `vehicle`; the group with key `v`
counts the matched records whose vehicle is `v`, and the initial `0`
(line 295) stands when no such group is emitted. -/
def vcountAll (recs : List Payload) (v : String) : Nat :=
  countWhere recs (fun r => decide (r.vehicle ∈ vehicle_types) && decide (r.vehicle = v))

/-- Per-type `entry_count` (pipeline at line 312): match `vehicle = v`,
group by `gate.type`, read the `"Entry"` group (line 320), `0` when
absent. -/
def ventryAll (recs : List Payload) (v : String) : Nat :=
  countWhere recs (fun r => decide (r.vehicle = v) && decide (r.gateType = some "Entry"))

/-- Per-type `exit_count` (line 322 of the same pipeline). -/
def vexitAll (recs : List Payload) (v : String) : Nat :=
  countWhere recs (fun r => decide (r.vehicle = v) && decide (r.gateType = some "Exit"))

/-- `GET /vehicle_counts` — `get_vehicle_counts` (line 286): one row per
vocabulary member followed by the two summary rows, whose values are
the sums of the per-type entry/exit sub-counts (lines 326-327). -/
def get_vehicle_counts (recs : List Payload) : List Row :=
  (vehicle_types.map fun v =>
    Row.typeRow v (vcountAll recs v) (ventryAll recs v) (vexitAll recs v))
  ++ [Row.summaryRow "entry_count" (vehicle_types.map (fun v => ventryAll recs v)).sum,
      Row.summaryRow "exit_count" (vehicle_types.map (fun v => vexitAll recs v)).sum]

/-- The timestamp window of the daily endpoints (lines 367-368): BSON
`$gte`/`$lte` on strings is lexicographic comparison against
`today_00:00:00` and `today_23:59:59`, `today` being the
`YYYY-MM-DD`-formatted current date. -/
def inToday (today ts : String) : Bool :=
  decide (today ++ "_00:00:00" ≤ ts ∧ ts ≤ today ++ "_23:59:59")

/-- Per-type total of `get_vehicle_counts_today` (pipeline at line 371):
the all-history count restricted to today's window. -/
def vcountToday (recs : List Payload) (today v : String) : Nat :=
  countWhere recs (fun r =>
    (decide (r.vehicle ∈ vehicle_types) && inToday today r.timestamp) && decide (r.vehicle = v))

/-- Per-type `entry_count` of the daily variant (line 392). -/
def ventryToday (recs : List Payload) (today v : String) : Nat :=
  countWhere recs (fun r =>
    (decide (r.vehicle = v) && inToday today r.timestamp) && decide (r.gateType = some "Entry"))

/-- Per-type `exit_count` of the daily variant (line 394). -/
def vexitToday (recs : List Payload) (today v : String) : Nat :=
  countWhere recs (fun r =>
    (decide (r.vehicle = v) && inToday today r.timestamp) && decide (r.gateType = some "Exit"))

/-- Number of today's records of type `v` classified `NotApplicable`. -/
def vnaCountToday (recs : List Payload) (today v : String) : Nat :=
  countWhere recs (fun r =>
    (decide (r.vehicle = v) && inToday today r.timestamp) &&
      decide (r.gateType = some "NotApplicable"))

/-- The `"notapplicable"` entry of the per-type dict in
`get_vehicle_counts_today`.  The dict is initialized at line 361
WITHOUT this key; line 396 adds it only when the group-by emits a
`"NotApplicable"` group, i.e. when at least one matching record carries
that classification.  `none` models the absent key. -/
def vnaToday (recs : List Payload) (today v : String) : Option Nat :=
  if vnaCountToday recs today v = 0 then none else some (vnaCountToday recs today v)

/-- `GET /vehicle_counts_today` — `get_vehicle_counts_today` (line 349):
like `get_vehicle_counts` restricted to today's window, with a third
summary row `N/A`.  Line 401 reads `vehicle_counts[vt]["notapplicable"]`
for EVERY vocabulary member; if any per-type dict lacks the key (no
`NotApplicable` record of that type today) Python raises `KeyError`,
which the enclosing `except` turns into `HTTPException(500, str(e))`.
Nothing is emitted before that point, so the handler either returns the
full row list or the 500 error. -/
def get_vehicle_counts_today (recs : List Payload) (today : String) :
    Except Err (List Row) :=
  if vehicle_types.all (fun v => (vnaToday recs today v).isSome) then
    .ok ((vehicle_types.map fun v =>
            Row.typeRow v (vcountToday recs today v) (ventryToday recs today v)
              (vexitToday recs today v))
      ++ [Row.summaryRow "entry_count"
            (vehicle_types.map (fun v => ventryToday recs today v)).sum,
          Row.summaryRow "exit_count"
            (vehicle_types.map (fun v => vexitToday recs today v)).sum,
          Row.summaryRow "N/A"
            (vehicle_types.map (fun v => (vnaToday recs today v).getD 0)).sum])
  else
    .error (Err.httpError 500 "KeyError: notapplicable")

/-- `GET /retrieve_data` — `retrieve_data` (line 449): an unfiltered scan
in insertion order with `skip((page-1)*perPage).limit(perPage)`. FastAPI
validates `page > 0` and `perPage > 0` before the handler runs. -/
def retrieve_data (recs : List Payload) (page perPage : Nat) : List Payload :=
  (recs.drop ((page - 1) * perPage)).take perPage

/-- `GET /retrieve_alert` — `retrieve_alert` (line 480): the same
pagination over the `alerts` collection. -/
def retrieve_alert (alerts : List Alert) (page perPage : Nat) : List Alert :=
  (alerts.drop ((page - 1) * perPage)).take perPage

/-- Handler results pair a store state with an `Except`; deciding
equalities of such results on concrete inputs needs decidable equality
on `Except`. -/
instance {ε α : Type} [DecidableEq ε] [DecidableEq α] : DecidableEq (Except ε α) := fun x y =>
  match x, y with
  | .error a, .error b =>
    if h : a = b then .isTrue (congrArg Except.error h)
    else .isFalse (fun hc => h (Except.error.inj hc))
  | .ok a, .ok b =>
    if h : a = b then .isTrue (congrArg Except.ok h)
    else .isFalse (fun hc => h (Except.ok.inj hc))
  | .error _, .ok _ => .isFalse (fun hc => Except.noConfusion hc)
  | .ok _, .error _ => .isFalse (fun hc => Except.noConfusion hc)

/-! ### Store lemmas -/

theorem update_one_no_match (db : List Doc) (q : Doc → Bool) (f : Doc → Doc)
    (h : ∀ d ∈ db, q d = false) : update_one db q f = (db, ⟨0, 0⟩) := by
  induction db with
  | nil => rfl
  | cons d rest ih =>
    have hd : q d = false := h d (List.mem_cons_self d rest)
    have hrest := ih (fun x hx => h x (List.mem_cons_of_mem d hx))
    simp [update_one, hd, hrest]

theorem update_one_split (pre post : List Doc) (d₀ : Doc) (q : Doc → Bool) (f : Doc → Doc)
    (hpre : ∀ d ∈ pre, q d = false) (h₀ : q d₀ = true) :
    update_one (pre ++ d₀ :: post) q f
      = (pre ++ f d₀ :: post, ⟨1, if f d₀ = d₀ then 0 else 1⟩) := by
  induction pre with
  | nil => simp [update_one, h₀]
  | cons d rest ih =>
    have hd : q d = false := hpre d (List.mem_cons_self d rest)
    have hrest := ih (fun x hx => hpre x (List.mem_cons_of_mem d hx))
    simp [update_one, hd, hrest]

theorem find?_split (pre post : List Doc) (d₀ : Doc) (q : Doc → Bool)
    (hpre : ∀ d ∈ pre, q d = false) (h₀ : q d₀ = true) :
    (pre ++ d₀ :: post).find? q = some d₀ := by
  induction pre with
  | nil => simp [List.find?, h₀]
  | cons d rest ih =>
    have hd : q d = false := hpre d (List.mem_cons_self d rest)
    have hrest := ih (fun x hx => hpre x (List.mem_cons_of_mem d hx))
    simp [List.find?, hd, hrest]

theorem replaceFirst_split {α : Type} (pre post : List α) (x₀ : α) (p : α → Bool) (a : α)
    (hpre : ∀ x ∈ pre, p x = false) (h₀ : p x₀ = true) :
    replaceFirst (pre ++ x₀ :: post) p a = pre ++ a :: post := by
  induction pre with
  | nil => simp [replaceFirst, h₀]
  | cons x rest ih =>
    have hx : p x = false := hpre x (List.mem_cons_self x rest)
    have hrest := ih (fun y hy => hpre y (List.mem_cons_of_mem x hy))
    simp [replaceFirst, hx, hrest]

/-! ### Claim C1 -/

/-- A stored configuration for camera `cam1` whose stream URL is
`rtsp://old`. -/
def c1Doc : Doc :=
  { camera_id := .str "cam1"
    rtsp_url := some "rtsp://old"
    algorithm := some "alpr"
    gate := some []
    wrong_parking := some [] }

/-- Claim C1: `UpdateStreamURL` should fail with `NotFound` exactly when no
document with the camera id exists, and succeed when the document exists
even if the new value equals the stored one.  The code violates this: on
the existing document `c1Doc`, updating `rtsp_url` to the value it
already holds makes the store report zero documents modified and the
handler raises a 404 (`"RTSP URL not updated"`) instead of succeeding.
The other two conjuncts show the surrounding behaviour: a genuinely new
value succeeds and stores the new value, and a missing camera id yields
the `NotFound` 404. -/
theorem C1_noop_stream_update_reported_not_found :
    update_rtsp_url [c1Doc] "cam1" "rtsp://old"
      = ([c1Doc], .error (Err.httpError 404 "RTSP URL not updated"))
    ∧ update_rtsp_url [c1Doc] "cam1" "rtsp://new"
      = ([{ c1Doc with rtsp_url := some "rtsp://new" }], .ok ())
    ∧ update_rtsp_url [c1Doc] "missing" "rtsp://new"
      = ([c1Doc], .error (Err.httpError 404 "Config not found")) := by
  decide

/-! ### Claim C2 -/

/-- A `POST /config` request body whose `camera_id` is the string `"7"`. -/
def c2Config : CameraConfig :=
  { camera_id := "7"
    rtsp_url := "rtsp://x"
    algorithm := "alpr"
    gate := []
    wrong_parking := [] }

/-- Claim C2: `Delete(camera_id)` should remove a previously created
config.  The code violates this: `create_config` stores `camera_id` as
the BSON string `"7"`, while `delete_config` declares its path parameter
as `int`, so `DELETE /config/7` filters on the BSON integer `7`, which
never equals the stored string — the delete reports `NotFound` and the
document survives. -/
theorem C2_delete_never_matches_created_config :
    create_config [] c2Config = ([docOfConfig c2Config], .ok 0)
    ∧ (docOfConfig c2Config).camera_id = BVal.str "7"
    ∧ delete_config [docOfConfig c2Config] 7
      = ([docOfConfig c2Config], .error (Err.httpError 404 "Config not found")) := by
  decide

/-! ### Claim C9 -/

/-- Claim C9: `CountToday` should return the per-type rows plus the three
summary rows.  The code violates this: the per-type dicts are created
without a `"notapplicable"` key and the key is only added for types that
have a `NotApplicable` record today, yet the `N/A` summary reads the key
for every vocabulary member — on the empty analytics collection this is
a `KeyError`, surfaced as an HTTP 500, instead of a report. -/
theorem C9_count_today_key_error_on_empty_store :
    get_vehicle_counts_today [] "2026-10-12"
      = .error (Err.httpError 500 "KeyError: notapplicable") := by
  decide

/-! ### Claim C10 -/

/-- Claim C10: on a store with no document for `cid`, `UpsertWrongParking`
with a non-empty item list takes the append branch for its first item,
whose `$push` matches no document, so the handler raises the 404
`"Failed to create new configuration"` and the store is unchanged — no
document is created.  By contrast (second conjunct), `UpsertGateList`
on the same store creates a minimal document holding only `camera_id`
and the gate list. -/
theorem C10_wrong_parking_missing_camera_fails (db : List Doc) (cid : String)
    (item : WrongParkingROI) (rest : List WrongParkingROI)
    (h : ∀ d ∈ db, d.camera_id ≠ BVal.str cid) :
    update_wrong_parking_config db cid (item :: rest)
      = (db, some (Err.httpError 404 "Failed to create new configuration"))
    ∧ (∀ gs : List GateROI, update_gate_config_post db cid gs
        = db ++ [{ camera_id := BVal.str cid, rtsp_url := none, algorithm := none,
                   gate := some gs, wrong_parking := none }]) := by
  have hcam : ∀ d ∈ db, camQuery cid d = false := fun d hd => by
    simp [camQuery, h d hd]
  have hwp : db.find? (wpQuery cid item.id) = none :=
    List.find?_eq_none.mpr (fun d hd => by simp [wpQuery, h d hd])
  have hup := update_one_no_match db (camQuery cid) (wpPush item) hcam
  have hstep : wp_step db cid item
      = (db, some (Err.httpError 404 "Failed to create new configuration")) := by
    simp [wp_step, hwp, hup]
  refine ⟨?_, ?_⟩
  · simp [update_wrong_parking_config, hstep]
  · intro gs
    have hfind : db.find? (camQuery cid) = none :=
      List.find?_eq_none.mpr (fun d hd => by simp [camQuery, h d hd])
    simp [update_gate_config_post, hfind]

/-- Witness for C10 at a concrete input: the empty store has no document
for camera `camX`, the call fails with the 404 and creates nothing. -/
theorem C10_wrong_parking_missing_camera_fails_witness :
    update_wrong_parking_config [] "camX" [⟨"p1", ⟨0, 0, 1, 1⟩⟩]
      = ([], some (Err.httpError 404 "Failed to create new configuration")) :=
  (C10_wrong_parking_missing_camera_fails [] "camX" ⟨"p1", ⟨0, 0, 1, 1⟩⟩ []
    (by simp)).1

/-! ### Claim C3 -/

/-- Number of documents whose `camera_id` equals `v`. -/
def camCount (db : List Doc) (v : BVal) : Nat :=
  (db.filter (fun d => decide (d.camera_id = v))).length

/-- Claim C3: `Create` fails with `Conflict` (HTTP 400) exactly when a
document with the same `camera_id` exists, and then leaves the store
unchanged; otherwise it appends the config and returns the generated
identifier; consequently it preserves `camera_id` uniqueness. -/
theorem C3_create_conflict_and_uniqueness :
    (∀ (db : List Doc) (c : CameraConfig),
       (∃ d ∈ db, d.camera_id = BVal.str c.camera_id) →
       create_config db c
         = (db, .error (Err.httpError 400
             "Camera configuration with the same camera_id already exists")))
    ∧ (∀ (db : List Doc) (c : CameraConfig),
       (∀ d ∈ db, d.camera_id ≠ BVal.str c.camera_id) →
       create_config db c = (db ++ [docOfConfig c], .ok db.length))
    ∧ (∀ (db : List Doc) (c : CameraConfig) (v : BVal),
       camCount db v ≤ 1 → camCount (create_config db c).1 v ≤ 1) := by
  refine ⟨?_, ?_, ?_⟩
  · intro db c ⟨d, hd, heq⟩
    have hsome : (db.find? (camQuery c.camera_id)).isSome :=
      List.find?_isSome.mpr ⟨d, hd, by simp [camQuery, heq]⟩
    obtain ⟨d', hd'⟩ := Option.isSome_iff_exists.mp hsome
    simp [create_config, hd']
  · intro db c h
    have hnone : db.find? (camQuery c.camera_id) = none :=
      List.find?_eq_none.mpr (fun d hd => by simp [camQuery, h d hd])
    simp [create_config, hnone]
  · intro db c v hle
    cases hf : db.find? (camQuery c.camera_id) with
    | some d => simpa [create_config, hf] using hle
    | none =>
      have hall : ∀ d ∈ db, d.camera_id ≠ BVal.str c.camera_id := by
        intro d hd
        have := List.find?_eq_none.mp hf d hd
        simpa [camQuery] using this
      by_cases hv : v = BVal.str c.camera_id
      · have hzero : camCount db v = 0 := by
          have : db.filter (fun d => decide (d.camera_id = v)) = [] :=
            List.filter_eq_nil_iff.mpr (fun d hd => by simp [hv, hall d hd])
          simp [camCount, this]
        have : camCount (db ++ [docOfConfig c]) v
            = camCount db v + camCount [docOfConfig c] v := by
          simp [camCount, List.filter_append]
        have h1 : (create_config db c).1 = db ++ [docOfConfig c] := by
          simp [create_config, hf]
        rw [h1, this, hzero]
        simp [camCount, docOfConfig, hv]
      · have hnew : (docOfConfig c).camera_id ≠ v := by
          simp [docOfConfig]
          exact fun heq => hv heq.symm
        have : camCount (db ++ [docOfConfig c]) v = camCount db v := by
          simp [camCount, List.filter_append, hnew]
        simpa [create_config, hf, this] using hle

/-- A `POST /config` request body for camera `cam3`. -/
def c3Config : CameraConfig :=
  { camera_id := "cam3"
    rtsp_url := "rtsp://cam3"
    algorithm := "alpr"
    gate := []
    wrong_parking := [] }

/-- Witness for C3 at concrete inputs: creating `cam3` in the empty store
succeeds with identifier 0; creating it again reports the 400 conflict
and leaves the single-document store unchanged; and the store resulting
from the first creation carries at most one `cam3` document. -/
theorem C3_create_conflict_and_uniqueness_witness :
    create_config [] c3Config = ([docOfConfig c3Config], .ok 0)
    ∧ create_config [docOfConfig c3Config] c3Config
      = ([docOfConfig c3Config], .error (Err.httpError 400
          "Camera configuration with the same camera_id already exists"))
    ∧ camCount (create_config [] c3Config).1 (BVal.str "cam3") ≤ 1 :=
  ⟨C3_create_conflict_and_uniqueness.2.1 [] c3Config (by simp),
   C3_create_conflict_and_uniqueness.1 [docOfConfig c3Config] c3Config
     ⟨docOfConfig c3Config, by simp, rfl⟩,
   C3_create_conflict_and_uniqueness.2.2 [] c3Config (BVal.str "cam3") (by decide)⟩

/-! ### Claim C7 -/

/-- Claim C7: for `page ≥ 1` and `perPage ≥ 1`, `ListAnalytics` and
`ListAlerts` return exactly the records at positions
`[(page-1)*perPage, page*perPage)` of the insertion order (element `i` of
the returned page is element `(page-1)*perPage + i` of the store), and a
page starting at or beyond the end of the store is the empty sequence
rather than an error.  The handlers return only the page itself — their
codomain is a bare record list, so no total-count metadata accompanies
it. -/
theorem C7_pagination_window (recs : List Payload) (alerts : List Alert)
    (page perPage : Nat) (hpage : 1 ≤ page) (hper : 1 ≤ perPage) :
    (∀ i, i < perPage →
       (retrieve_data recs page perPage)[i]? = recs[(page - 1) * perPage + i]?)
    ∧ (recs.length ≤ (page - 1) * perPage → retrieve_data recs page perPage = [])
    ∧ (∀ i, i < perPage →
       (retrieve_alert alerts page perPage)[i]? = alerts[(page - 1) * perPage + i]?)
    ∧ (alerts.length ≤ (page - 1) * perPage → retrieve_alert alerts page perPage = []) := by
  refine ⟨?_, ?_, ?_, ?_⟩
  · intro i hi
    rw [retrieve_data, List.getElem?_take, if_pos hi, List.getElem?_drop]
  · intro hlen
    rw [retrieve_data, List.drop_eq_nil_of_le hlen, List.take_nil]
  · intro i hi
    rw [retrieve_alert, List.getElem?_take, if_pos hi, List.getElem?_drop]
  · intro hlen
    rw [retrieve_alert, List.drop_eq_nil_of_le hlen, List.take_nil]

/-- The analytics record numbered `n` of the pagination fixture. -/
def c7Payload (n : Nat) : Payload :=
  { camera_id := n
    gateType := some "Entry"
    vehicle := "car"
    plate_type := "private"
    license_plate := toString n
    plate_img := ""
    timestamp := "" }

/-- Twelve analytics records in insertion order. -/
def c7Records : List Payload := (List.range 12).map c7Payload

/-- Witness for C7 at the spec's fixture: over 12 records, page 2 with 5
per page starts at stored record 5 (0-based; records 6-10 in the spec's
1-based wording), and page 4 is past the end and comes back empty. -/
theorem C7_pagination_window_witness :
    (retrieve_data c7Records 2 5)[0]? = c7Records[5]?
    ∧ retrieve_data c7Records 4 5 = [] :=
  ⟨(C7_pagination_window c7Records [] 2 5 (by decide) (by decide)).1 0 (by decide),
   (C7_pagination_window c7Records [] 4 5 (by decide) (by decide)).2.1 (by decide)⟩

/-! ### Claim C4 -/

/-- Effect of `POST /gate/{camera_id}` when the camera document exists at
an arbitrary position: the found document's `gate` list (defaulting to
`[]`) gets the new gates appended, everything else is untouched. -/
theorem gate_post_existing (pre post : List Doc) (d₀ : Doc) (cid : String)
    (gs : List GateROI)
    (hpre : ∀ d ∈ pre, d.camera_id ≠ BVal.str cid)
    (h₀ : d₀.camera_id = BVal.str cid) :
    update_gate_config_post (pre ++ d₀ :: post) cid gs
      = pre ++ { d₀ with gate := some (d₀.gate.getD [] ++ gs) } :: post := by
  have hqpre : ∀ d ∈ pre, camQuery cid d = false := fun d hd => by
    simp [camQuery, hpre d hd]
  have hq₀ : camQuery cid d₀ = true := by simp [camQuery, h₀]
  have hfind : (pre ++ d₀ :: post).find? (camQuery cid) = some d₀ :=
    find?_split pre post d₀ (camQuery cid) hqpre hq₀
  have hup := update_one_split pre post d₀ (camQuery cid)
    (fun d => { d with gate := some (d₀.gate.getD [] ++ gs) }) hqpre hq₀
  simp [update_gate_config_post, hfind, hup]

/-- Claim C4: `UpsertGateList` creates a minimal document (only
`camera_id` and `gate`) when the camera is absent; when present it
appends the given gates to the existing list without replacing or
deduplicating, so two successive calls extend the camera's gate list by
both calls' lists, its final length being the sum of the previous length
and both lengths. -/
theorem C4_upsert_gate_list_appends (pre post : List Doc) (d₀ : Doc)
    (cid : String) (g1 g2 : List GateROI)
    (hpre : ∀ d ∈ pre, d.camera_id ≠ BVal.str cid)
    (h₀ : d₀.camera_id = BVal.str cid) :
    (∀ (db : List Doc) (gs : List GateROI),
       (∀ d ∈ db, d.camera_id ≠ BVal.str cid) →
       update_gate_config_post db cid gs
         = db ++ [{ camera_id := BVal.str cid, rtsp_url := none, algorithm := none,
                    gate := some gs, wrong_parking := none }])
    ∧ update_gate_config_post (pre ++ d₀ :: post) cid g1
        = pre ++ { d₀ with gate := some (d₀.gate.getD [] ++ g1) } :: post
    ∧ update_gate_config_post (update_gate_config_post (pre ++ d₀ :: post) cid g1) cid g2
        = pre ++ { d₀ with gate := some (d₀.gate.getD [] ++ g1 ++ g2) } :: post
    ∧ (d₀.gate.getD [] ++ g1 ++ g2).length
        = (d₀.gate.getD []).length + g1.length + g2.length := by
  refine ⟨?_, ?_, ?_, ?_⟩
  · intro db gs h
    have hfind : db.find? (camQuery cid) = none :=
      List.find?_eq_none.mpr (fun d hd => by simp [camQuery, h d hd])
    simp [update_gate_config_post, hfind]
  · exact gate_post_existing pre post d₀ cid g1 hpre h₀
  · rw [gate_post_existing pre post d₀ cid g1 hpre h₀]
    have h₀' : ({ d₀ with gate := some (d₀.gate.getD [] ++ g1) } : Doc).camera_id
        = BVal.str cid := h₀
    rw [gate_post_existing pre post _ cid g2 hpre h₀']
    simp [List.append_assoc]
  · simp [List.length_append, Nat.add_assoc]

/-- A camera document for `cam4` already holding one gate. -/
def c4Doc : Doc :=
  { camera_id := .str "cam4"
    rtsp_url := some "rtsp://cam4"
    algorithm := some "alpr"
    gate := some [⟨"Entry", "g0", [], []⟩]
    wrong_parking := some [] }

/-- The gate appended by the first fixture call. -/
def c4Gate1 : GateROI := ⟨"Entry", "g1", [], []⟩

/-- The gate appended by the second fixture call. -/
def c4Gate2 : GateROI := ⟨"Exit", "g2", [], []⟩

/-- Witness for C4 at concrete inputs: appending `g1` then `g2` to the
one-gate camera `cam4` yields the three gates in order, of summed
length; on the empty store the call creates the minimal document. -/
theorem C4_upsert_gate_list_appends_witness :
    update_gate_config_post [] "cam4" [c4Gate1]
      = [{ camera_id := BVal.str "cam4", rtsp_url := none, algorithm := none,
           gate := some [c4Gate1], wrong_parking := none }]
    ∧ update_gate_config_post (update_gate_config_post [c4Doc] "cam4"
          [c4Gate1]) "cam4" [c4Gate2]
        = [{ c4Doc with gate := some [⟨"Entry", "g0", [], []⟩, c4Gate1, c4Gate2] }]
    ∧ (c4Doc.gate.getD [] ++ [c4Gate1] ++ [c4Gate2]).length
        = (c4Doc.gate.getD []).length + 1 + 1 := by
  have h := C4_upsert_gate_list_appends [] [] c4Doc "cam4"
    [c4Gate1] [c4Gate2] (by simp) rfl
  refine ⟨h.1 [] [c4Gate1] (by simp), ?_, ?_⟩
  · exact (h.2.2.1).trans (by decide)
  · exact h.2.2.2

/-! ### Claim C6 -/

/-- Claim C6: `ReplaceGate` fails with `NotFound` when no document has
both the camera id and a gate element with the gate id; when the camera
document exists and its gate list contains such an element, exactly that
element is replaced by the given gate — the documents before and after
the camera document, the camera document's other fields, and the other
gate elements and their order are all unchanged. -/
theorem C6_replace_gate_in_place :
    (∀ (db : List Doc) (cid gid : String) (g : GateROI),
       (∀ d ∈ db, ¬(d.camera_id = BVal.str cid ∧ ∃ e ∈ d.gate.getD [], e.id = gid)) →
       update_gate_config_put db cid gid g
         = (db, .error (Err.httpError 404
             ("Gate configuration with ID " ++ gid ++ " not found for camera ID " ++ cid))))
    ∧ (∀ (pre post : List Doc) (d₀ : Doc) (cid gid : String) (g : GateROI)
         (gpre gpost : List GateROI) (e₀ : GateROI),
       (∀ d ∈ pre, ¬(d.camera_id = BVal.str cid ∧ ∃ e ∈ d.gate.getD [], e.id = gid)) →
       d₀.camera_id = BVal.str cid →
       d₀.gate = some (gpre ++ e₀ :: gpost) →
       (∀ e ∈ gpre, e.id ≠ gid) →
       e₀.id = gid →
       update_gate_config_put (pre ++ d₀ :: post) cid gid g
         = (pre ++ { d₀ with gate := some (gpre ++ g :: gpost) } :: post, .ok ())) := by
  constructor
  · intro db cid gid g hno
    have hq : ∀ d ∈ db, putQuery cid gid d = false := by
      intro d hd
      have hnt : ¬ (putQuery cid gid d = true) := fun htrue =>
        hno d hd (by simpa [putQuery, List.any_eq_true] using htrue)
      simpa using hnt
    have hup := update_one_no_match db (putQuery cid gid) (putUpdate gid g) hq
    simp [update_gate_config_put, hup]
  · intro pre post d₀ cid gid g gpre gpost e₀ hpre h₀ hl hgpre he₀
    have hqpre : ∀ d ∈ pre, putQuery cid gid d = false := by
      intro d hd
      have hnt : ¬ (putQuery cid gid d = true) := fun htrue =>
        hpre d hd (by simpa [putQuery, List.any_eq_true] using htrue)
      simpa using hnt
    have hq₀ : putQuery cid gid d₀ = true := by
      simp [putQuery, h₀, hl, List.any_eq_true]
      exact Or.inr (Or.inl he₀)
    have hup := update_one_split pre post d₀ (putQuery cid gid) (putUpdate gid g)
      hqpre hq₀
    have hrf : replaceFirst (gpre ++ e₀ :: gpost) (fun e => decide (e.id = gid)) g
        = gpre ++ g :: gpost :=
      replaceFirst_split gpre gpost e₀ _ g (fun e he => by simp [hgpre e he])
        (by simp [he₀])
    have hfd : putUpdate gid g d₀ = { d₀ with gate := some (gpre ++ g :: gpost) } := by
      simp [putUpdate, hl, hrf]
    rw [update_gate_config_put, hup]
    simp [hfd]

/-- The gate element that stays untouched by the C6 fixture call. -/
def c6Keep : GateROI := ⟨"Exit", "gKeep", [⟨1, 1⟩], [⟨2, 2⟩]⟩

/-- The camera document of the C6 fixture: camera `cam6` with two gates,
`gTarget` first and `gKeep` second. -/
def c6Doc : Doc :=
  { camera_id := .str "cam6"
    rtsp_url := some "rtsp://cam6"
    algorithm := some "alpr"
    gate := some [⟨"Entry", "gTarget", [], []⟩, c6Keep]
    wrong_parking := some [] }

/-- The replacement gate of the C6 fixture. -/
def c6New : GateROI := ⟨"Entry", "gTarget", [⟨3, 3⟩], [⟨4, 4⟩]⟩

/-- Witness for C6 at concrete inputs: replacing `gTarget` on `cam6`
rewrites only that element, keeping `gKeep` and its position, while an
id that occurs nowhere yields the 404. -/
theorem C6_replace_gate_in_place_witness :
    update_gate_config_put [c6Doc] "cam6" "gTarget" c6New
      = ([{ c6Doc with gate := some [c6New, c6Keep] }], .ok ())
    ∧ update_gate_config_put [c6Doc] "cam6" "gGone" c6New
      = ([c6Doc], .error (Err.httpError 404
          "Gate configuration with ID gGone not found for camera ID cam6")) :=
  ⟨C6_replace_gate_in_place.2 [] [] c6Doc "cam6" "gTarget" c6New
      [] [c6Keep] ⟨"Entry", "gTarget", [], []⟩ (by simp) rfl rfl (by simp) rfl,
   C6_replace_gate_in_place.1 [c6Doc] "cam6" "gGone" c6New (by decide)⟩

/-! ### Claim C5 -/

/-- One upsert iteration on an item whose id occurs in the camera
document's `wrong_parking` list: the first element with that id is
replaced in place, everything else untouched.  The handler reports the
404 `"Failed to update configuration"` exactly when the new item already
equals the stored element (the store then counts zero modified); the
resulting store is the in-place replacement either way. -/
theorem wp_step_replace (pre post : List Doc) (d₀ : Doc) (cid : String)
    (item : WrongParkingROI) (lpre lpost : List WrongParkingROI)
    (e₀ : WrongParkingROI)
    (hpre : ∀ d ∈ pre, d.camera_id ≠ BVal.str cid)
    (h₀ : d₀.camera_id = BVal.str cid)
    (hl : d₀.wrong_parking = some (lpre ++ e₀ :: lpost))
    (hlpre : ∀ e ∈ lpre, e.id ≠ item.id)
    (he₀ : e₀.id = item.id) :
    wp_step (pre ++ d₀ :: post) cid item
      = (pre ++ { d₀ with wrong_parking := some (lpre ++ item :: lpost) } :: post,
         if item = e₀ then
           some (Err.httpError 404
             ("Failed to update configuration with ID " ++ item.id))
         else none) := by
  have hqpre : ∀ d ∈ pre, wpQuery cid item.id d = false := fun d hd => by
    simp [wpQuery, hpre d hd]
  have hq₀ : wpQuery cid item.id d₀ = true := by
    simp [wpQuery, h₀, hl, List.any_eq_true]
    exact Or.inr (Or.inl he₀)
  have hfind : (pre ++ d₀ :: post).find? (wpQuery cid item.id) = some d₀ :=
    find?_split pre post d₀ (wpQuery cid item.id) hqpre hq₀
  have hup := update_one_split pre post d₀ (wpQuery cid item.id) (wpReplace item)
    hqpre hq₀
  have hrf : replaceFirst (lpre ++ e₀ :: lpost) (fun e => decide (e.id = item.id))
      item = lpre ++ item :: lpost :=
    replaceFirst_split lpre lpost e₀ _ item (fun e he => by simp [hlpre e he])
      (by simp [he₀])
  have hfd : wpReplace item d₀
      = { d₀ with wrong_parking := some (lpre ++ item :: lpost) } := by
    simp [wpReplace, hl, hrf]
  have hiff : wpReplace item d₀ = d₀ ↔ item = e₀ := by
    rw [hfd]
    constructor
    · intro h
      have hwp := congrArg Doc.wrong_parking h
      rw [hl] at hwp
      have hlist : lpre ++ item :: lpost = lpre ++ e₀ :: lpost :=
        Option.some.inj hwp
      exact (List.cons.inj (List.append_cancel_left hlist)).1
    · intro h
      subst h
      rw [← hl]
  by_cases hcase : item = e₀
  · have hz : wpReplace item d₀ = d₀ := hiff.mpr hcase
    rw [if_pos hcase, ← hfd]
    simp [wp_step, hfind, hup, hz]
  · have hz : ¬ (wpReplace item d₀ = d₀) := fun h => hcase (hiff.mp h)
    rw [if_neg hcase, ← hfd]
    simp [wp_step, hfind, hup, hz]

/-- One upsert iteration on an item whose id occurs nowhere in the camera
document's `wrong_parking` list: the item is appended at the end of the
list (the `$push` creates the field when absent) and no error is
reported. -/
theorem wp_step_append (pre post : List Doc) (d₀ : Doc) (cid : String)
    (item : WrongParkingROI)
    (hpre : ∀ d ∈ pre, d.camera_id ≠ BVal.str cid)
    (hpost : ∀ d ∈ post, d.camera_id ≠ BVal.str cid)
    (h₀ : d₀.camera_id = BVal.str cid)
    (hno : ∀ e ∈ d₀.wrong_parking.getD [], e.id ≠ item.id) :
    wp_step (pre ++ d₀ :: post) cid item
      = (pre ++
          { d₀ with wrong_parking := some (d₀.wrong_parking.getD [] ++ [item]) }
          :: post, none) := by
  have hany : (d₀.wrong_parking.getD []).any (fun e => decide (e.id = item.id))
      = false := by
    rw [List.any_eq_false]
    intro e he
    simp [hno e he]
  have hqall : ∀ d ∈ pre ++ d₀ :: post, wpQuery cid item.id d = false := by
    intro d hd
    rcases List.mem_append.mp hd with hdpre | hdtail
    · simp [wpQuery, hpre d hdpre]
    · rcases List.mem_cons.mp hdtail with hdeq | hdpost
      · subst hdeq
        simp [wpQuery, hany]
      · simp [wpQuery, hpost d hdpost]
  have hfind : (pre ++ d₀ :: post).find? (wpQuery cid item.id) = none :=
    List.find?_eq_none.mpr (fun d hd => by simp [hqall d hd])
  have hqpre : ∀ d ∈ pre, camQuery cid d = false := fun d hd => by
    simp [camQuery, hpre d hd]
  have hq₀ : camQuery cid d₀ = true := by simp [camQuery, h₀]
  have hup := update_one_split pre post d₀ (camQuery cid) (wpPush item) hqpre hq₀
  have hne : ¬ (wpPush item d₀ = d₀) := by
    intro h
    have hwp := congrArg Doc.wrong_parking h
    simp [wpPush] at hwp
    cases hl : d₀.wrong_parking with
    | none => rw [hl] at hwp; exact Option.noConfusion hwp
    | some l =>
      rw [hl] at hwp
      have hlist := Option.some.inj hwp
      simp at hlist
  show wp_step (pre ++ d₀ :: post) cid item = (pre ++ wpPush item d₀ :: post, none)
  simp [wp_step, hfind, hup, hne]

/-- Claim C5: `UpsertWrongParking` is a per-item upsert with no
transaction across the batch.  Conjunct 1: an item whose id occurs in
the camera's `wrong_parking` list replaces (exactly) that element in
place.  Conjunct 2: an item whose id occurs nowhere in the list is
appended at the end.  Conjuncts 3 and 4: the batch processes items
sequentially — a successful step passes its updated store to the rest of
the batch, and a failing step returns its store, with the effects of all
earlier items intact (no rollback). -/
theorem C5_wrong_parking_per_item_upsert :
    (∀ (pre post : List Doc) (d₀ : Doc) (cid : String) (item : WrongParkingROI)
       (lpre lpost : List WrongParkingROI) (e₀ : WrongParkingROI),
       (∀ d ∈ pre, d.camera_id ≠ BVal.str cid) →
       d₀.camera_id = BVal.str cid →
       d₀.wrong_parking = some (lpre ++ e₀ :: lpost) →
       (∀ e ∈ lpre, e.id ≠ item.id) →
       e₀.id = item.id →
       (wp_step (pre ++ d₀ :: post) cid item).1
         = pre ++ { d₀ with wrong_parking := some (lpre ++ item :: lpost) } :: post)
    ∧ (∀ (pre post : List Doc) (d₀ : Doc) (cid : String) (item : WrongParkingROI),
       (∀ d ∈ pre, d.camera_id ≠ BVal.str cid) →
       (∀ d ∈ post, d.camera_id ≠ BVal.str cid) →
       d₀.camera_id = BVal.str cid →
       (∀ e ∈ d₀.wrong_parking.getD [], e.id ≠ item.id) →
       wp_step (pre ++ d₀ :: post) cid item
         = (pre ++
             { d₀ with wrong_parking := some (d₀.wrong_parking.getD [] ++ [item]) }
             :: post, none))
    ∧ (∀ (db db1 : List Doc) (cid : String) (item : WrongParkingROI)
         (rest : List WrongParkingROI),
       wp_step db cid item = (db1, none) →
       update_wrong_parking_config db cid (item :: rest)
         = update_wrong_parking_config db1 cid rest)
    ∧ (∀ (db db1 : List Doc) (cid : String) (item : WrongParkingROI)
         (rest : List WrongParkingROI) (e : Err),
       wp_step db cid item = (db1, some e) →
       update_wrong_parking_config db cid (item :: rest) = (db1, some e)) := by
  refine ⟨?_, wp_step_append, ?_, ?_⟩
  · intro pre post d₀ cid item lpre lpost e₀ hpre h₀ hl hlpre he₀
    rw [wp_step_replace pre post d₀ cid item lpre lpost e₀ hpre h₀ hl hlpre he₀]
  · intro db db1 cid item rest h
    simp [update_wrong_parking_config, h]
  · intro db db1 cid item rest e h
    simp [update_wrong_parking_config, h]

/-- The stored wrong-parking zone `p1` of the C5 fixture. -/
def c5P1 : WrongParkingROI := ⟨"p1", ⟨0, 0, 1, 1⟩⟩

/-- The stored wrong-parking zone `p2` of the C5 fixture. -/
def c5P2 : WrongParkingROI := ⟨"p2", ⟨2, 2, 1, 1⟩⟩

/-- The camera document of the C5 fixture: camera `cam5` with zones `p1`
and `p2`. -/
def c5Doc : Doc :=
  { camera_id := .str "cam5"
    rtsp_url := some "rtsp://cam5"
    algorithm := some "alpr"
    gate := some []
    wrong_parking := some [c5P1, c5P2] }

/-- Witness for C5 at concrete inputs: upserting an item with the stored
id `p1` replaces the first element in place and keeps `p2`; upserting
the fresh id `p3` appends; a successful step feeds its store to the rest
of the batch; a failing step (the no-op `p1` upsert) aborts the batch,
returning the store it produced and skipping the remaining items. -/
theorem C5_wrong_parking_per_item_upsert_witness :
    (wp_step [c5Doc] "cam5" ⟨"p1", ⟨5, 5, 1, 1⟩⟩).1
      = [{ c5Doc with wrong_parking := some [⟨"p1", ⟨5, 5, 1, 1⟩⟩, c5P2] }]
    ∧ wp_step [c5Doc] "cam5" ⟨"p3", ⟨9, 9, 1, 1⟩⟩
      = ([{ c5Doc with wrong_parking := some [c5P1, c5P2, ⟨"p3", ⟨9, 9, 1, 1⟩⟩] }], none)
    ∧ update_wrong_parking_config [c5Doc] "cam5" [⟨"p3", ⟨9, 9, 1, 1⟩⟩]
      = update_wrong_parking_config
          [{ c5Doc with wrong_parking := some [c5P1, c5P2, ⟨"p3", ⟨9, 9, 1, 1⟩⟩] }]
          "cam5" []
    ∧ update_wrong_parking_config [c5Doc] "cam5" [c5P1, ⟨"p3", ⟨9, 9, 1, 1⟩⟩]
      = ([c5Doc], some (Err.httpError 404 "Failed to update configuration with ID p1")) := by
  refine ⟨?_, ?_, ?_, ?_⟩
  · exact (C5_wrong_parking_per_item_upsert.1 [] [] c5Doc "cam5"
      ⟨"p1", ⟨5, 5, 1, 1⟩⟩ [] [c5P2] c5P1 (by simp) rfl rfl (by simp) rfl).trans
      (by decide)
  · exact (C5_wrong_parking_per_item_upsert.2.1 [] [] c5Doc "cam5"
      ⟨"p3", ⟨9, 9, 1, 1⟩⟩ (by simp) (by simp) rfl (by decide)).trans (by decide)
  · exact C5_wrong_parking_per_item_upsert.2.2.1 [c5Doc]
      [{ c5Doc with wrong_parking := some [c5P1, c5P2, ⟨"p3", ⟨9, 9, 1, 1⟩⟩] }]
      "cam5" ⟨"p3", ⟨9, 9, 1, 1⟩⟩ [] (by decide)
  · exact C5_wrong_parking_per_item_upsert.2.2.2 [c5Doc] [c5Doc] "cam5" c5P1
      [⟨"p3", ⟨9, 9, 1, 1⟩⟩] (Err.httpError 404 "Failed to update configuration with ID p1")
      (by decide)

/-! ### Claim C8 -/

/-- Claim C8: `CountAll` counts only records whose `vehicle` lies in the
fixed vocabulary.  Conjunct 1: for a vocabulary member `v`, the `$in`
pre-filter is redundant and the per-type total is simply the number of
records with `vehicle = v`.  Conjunct 2: a record whose vehicle lies
outside the vocabulary contributes to no row — prepending it leaves the
whole output unchanged (and raises no error, the output being total).
Conjunct 3: the output is one row per vocabulary member followed by the
`entry_count` and `exit_count` summary rows, whose values are the sums
over the vocabulary of the per-type `Entry` and `Exit` sub-counts. -/
theorem C8_count_all_vocabulary_rows (recs : List Payload) (r : Payload) :
    (∀ v ∈ vehicle_types, vcountAll recs v
        = countWhere recs (fun rec => decide (rec.vehicle = v)))
    ∧ (r.vehicle ∉ vehicle_types →
        get_vehicle_counts (r :: recs) = get_vehicle_counts recs)
    ∧ get_vehicle_counts recs
        = (vehicle_types.map fun v =>
            Row.typeRow v (vcountAll recs v) (ventryAll recs v) (vexitAll recs v))
          ++ [Row.summaryRow "entry_count"
                (vehicle_types.map (fun v => ventryAll recs v)).sum,
              Row.summaryRow "exit_count"
                (vehicle_types.map (fun v => vexitAll recs v)).sum] := by
  refine ⟨?_, ?_, rfl⟩
  · intro v hv
    unfold vcountAll countWhere
    congr 1
    apply List.filter_congr
    intro rec _
    by_cases h : rec.vehicle = v
    · simp [h, hv]
    · simp [h]
  · intro hr
    have hcount : ∀ v ∈ vehicle_types, vcountAll (r :: recs) v = vcountAll recs v := by
      intro v hv
      have hfalse : (decide (r.vehicle ∈ vehicle_types)
          && decide (r.vehicle = v)) = false := by simp [hr]
      unfold vcountAll countWhere
      simp [List.filter_cons, hfalse]
    have hne : ∀ v ∈ vehicle_types, r.vehicle ≠ v := by
      intro v hv heq
      exact hr (heq ▸ hv)
    have hentry : ∀ v ∈ vehicle_types, ventryAll (r :: recs) v = ventryAll recs v := by
      intro v hv
      have hfalse : (decide (r.vehicle = v)
          && decide (r.gateType = some "Entry")) = false := by simp [hne v hv]
      unfold ventryAll countWhere
      simp [List.filter_cons, hfalse]
    have hexit : ∀ v ∈ vehicle_types, vexitAll (r :: recs) v = vexitAll recs v := by
      intro v hv
      have hfalse : (decide (r.vehicle = v)
          && decide (r.gateType = some "Exit")) = false := by simp [hne v hv]
      unfold vexitAll countWhere
      simp [List.filter_cons, hfalse]
    unfold get_vehicle_counts
    rw [List.map_congr_left (fun v hv => by
          rw [hcount v hv, hentry v hv, hexit v hv]),
        List.map_congr_left hentry, List.map_congr_left hexit]

/-- An analytics record whose vehicle `bus` lies outside the fixed
vocabulary. -/
def c8BusRec : Payload :=
  { camera_id := 1
    gateType := some "Entry"
    vehicle := "bus"
    plate_type := "private"
    license_plate := "KA01"
    plate_img := ""
    timestamp := "" }

/-- Witness for C8 at concrete inputs: for the vocabulary member `car`
the per-type total is the plain `vehicle = car` count, and the bus
record contributes to no row — counting the one-bus store equals
counting the empty store. -/
theorem C8_count_all_vocabulary_rows_witness :
    vcountAll [c8BusRec] "car"
      = countWhere [c8BusRec] (fun rec => decide (rec.vehicle = "car"))
    ∧ get_vehicle_counts [c8BusRec] = get_vehicle_counts [] :=
  ⟨(C8_count_all_vocabulary_rows [c8BusRec] c8BusRec).1 "car" (by decide),
   (C8_count_all_vocabulary_rows [] c8BusRec).2.1 (by decide)⟩

end Alpr
